import Mathlib

/-!
Shallow embedding of the project-processing subsystem of the
learn_textbook_with_ai repository: the status store (`storage.js`),
the orchestrator `processProjectWithPython` (processor service), and
the request gateway route `POST /process-project` (`routes/process.js`).
JS objects become Lean structures; optional / possibly-absent JSON
fields become `Option`; the per-user status document becomes an
`Option UserStatus` threaded explicitly through each operation; the
remote Python API is a record of canned stage responses; the list of
stage endpoints actually invoked is returned alongside the result so
that "zero stage calls" style properties are statable.
-/

/-- Project record as created by `addUploadedProject` and mutated by the
orchestrator.  Fields absent until set are `Option` with default `none`. -/
structure Project where
  id : String
  filename : String
  originalName : String
  uploadedAt : String
  status : String
  processedAt : Option String := none
  markdownFile : Option String := none
  chunksFile : Option String := none
  collectionName : Option String := none
  error : Option String := none
  deriving Repr, DecidableEq

/-- Per-user status document (`user_status.json`). -/
structure UserStatus where
  uploadedProjects : List Project
  currentProject : Option String
  deriving Repr, DecidableEq

/-- One remote stage response as seen by the orchestrator: the HTTP `ok`
flag of the fetch response, the JSON `success` flag, and the optional
`data.path`, `detail` and `message` fields of the JSON body. -/
structure StageResponse where
  ok : Bool
  success : Bool
  dataPath : Option String := none
  detail : Option String := none
  message : Option String := none
  deriving Repr, DecidableEq

/-- The external Python API, modelled as canned responses: whether the
`/health` probe succeeds (fetch does not throw and response is ok), and
the responses of the three stage endpoints. -/
structure PythonApi where
  healthReachable : Bool
  mineru : StageResponse
  chunker : StageResponse
  vectorization : StageResponse
  deriving Repr, DecidableEq

/-- Result object returned by `processProjectWithPython`.  The JS object
omits `project` on the failure paths; that is `none` here. -/
structure ProcessResult where
  success : Bool
  message : String
  error : Option String := none
  pythonUnavailable : Bool := false
  project : Option Project := none
  deriving Repr, DecidableEq

/-- JavaScript `a || b` on an optional string: `undefined`/missing and the
empty string are falsy and fall through to the default. -/
def jsOrStr (v : Option String) (d : String) : String :=
  match v with
  | none => d
  | some s => if s = "" then d else s

/-- JavaScript truthiness test for an optional string (`!x`):
missing/null and the empty string are falsy. -/
def jsFalsyStr (v : Option String) : Bool :=
  match v with
  | none => true
  | some s => s = ""

/-- The `detail || message || "Unknown error"` fallback used when a stage
response is non-success. -/
def stageDetail (r : StageResponse) : String :=
  jsOrStr r.detail (jsOrStr r.message "Unknown error")

/-- `userStatus.uploadedProjects.find((p) => p.id === projectId)`. -/
def findProject (us : UserStatus) (projectId : String) : Option Project :=
  us.uploadedProjects.find? (fun p => p.id == projectId)

/-- Mutating the project object returned by `find` and then writing the
whole document back: only the first project with a matching id changes. -/
def setFirstMatch : List Project → String → (Project → Project) → List Project
  | [], _, _ => []
  | p :: ps, pid, f =>
      if p.id == pid then f p :: ps else p :: setFirstMatch ps pid f

/-- The catch handler of `processProjectWithPython`: re-read the user
status, mark the project (when found) as failed with the thrown message,
write the document back, and build the failure result object. -/
def failProject (store : Option UserStatus) (projectId : String)
    (errMsg : String) : ProcessResult × Option UserStatus :=
  let result : ProcessResult :=
    { success := false
      message := "Processing failed: " ++ errMsg
      error := some errMsg }
  match store with
  | none => (result, store)
  | some us =>
      match findProject us projectId with
      | none => (result, store)
      | some _ =>
          let ps := setFirstMatch us.uploadedProjects projectId
            (fun p => { p with status := "failed", error := some errMsg })
          (result, some { us with uploadedProjects := ps })

/-- Orchestrator `processProjectWithPython(username, projectId)`.
Returns the result object, the status store after the call, and the
list of stage endpoints invoked (in order). -/
def processProjectWithPython (store : Option UserStatus) (api : PythonApi)
    (username projectId : String) (now : String) :
    ProcessResult × Option UserStatus × List String :=
  match store with
  | none =>
      let (r, st) := failProject store projectId "User status not found"
      (r, st, [])
  | some us =>
      match findProject us projectId with
      | none =>
          let (r, st) := failProject store projectId "Project not found"
          (r, st, [])
      | some project =>
          if api.healthReachable then
            if !(api.mineru.ok && api.mineru.success) then
              let (r, st) := failProject store projectId
                ("MinerU processing failed: " ++ stageDetail api.mineru)
              (r, st, ["mineru"])
            else
              let markdownFile :=
                jsOrStr api.mineru.dataPath (project.filename ++ ".md")
              if !(api.chunker.ok && api.chunker.success) then
                let (r, st) := failProject store projectId
                  ("Chunker processing failed: " ++ stageDetail api.chunker)
                (r, st, ["mineru", "chunker"])
              else
                let chunksFile :=
                  jsOrStr api.chunker.dataPath (projectId ++ "-chunks.json")
                if !(api.vectorization.ok && api.vectorization.success) then
                  let (r, st) := failProject store projectId
                    ("Vectorization failed: " ++ stageDetail api.vectorization)
                  (r, st, ["mineru", "chunker", "vectorization"])
                else
                  let upd : Project → Project := fun p =>
                    { p with status := "completed"
                             processedAt := some now
                             markdownFile := some markdownFile
                             chunksFile := some chunksFile
                             collectionName := some (username ++ "-" ++ projectId) }
                  match findProject us projectId with
                  | some q =>
                      let ps := setFirstMatch us.uploadedProjects projectId upd
                      ({ success := true
                         message := "Project processed successfully"
                         project := some (upd q) },
                        some { us with uploadedProjects := ps },
                        ["mineru", "chunker", "vectorization"])
                  | none =>
                      ({ success := true
                         message := "Project processed successfully" },
                        store,
                        ["mineru", "chunker", "vectorization"])
          else
            let st :=
              match findProject us projectId with
              | some _ =>
                  let ps := setFirstMatch us.uploadedProjects projectId
                    (fun p => { p with status := "failed",
                                       error := some "Python API server is not running" })
                  some { us with uploadedProjects := ps }
              | none => store
            ({ success := false
               message := "Python API server is not running. Please start it with: python src/core/main.py"
               error := some "Python API unavailable"
               pythonUnavailable := true },
              st, [])

/-- `getProjectProcessingStatus(username, projectId)`: read the user
status and look up the project; `null` on any miss. -/
def getProjectProcessingStatus (store : Option UserStatus)
    (projectId : String) : Option Project :=
  match store with
  | none => none
  | some us => findProject us projectId

/-- Body of a gateway JSON response; JS-omitted keys are `none`. -/
structure ResponseBody where
  status : Option String := none
  message : Option String := none
  error : Option String := none
  errorType : Option String := none
  project : Option Project := none
  deriving Repr, DecidableEq

/-- Gateway HTTP response: status code plus JSON body. -/
structure HttpResponse where
  statusCode : Nat
  body : ResponseBody
  deriving Repr, DecidableEq

/-- Gateway route `POST /process-project`.  Returns the response sent
(`none` when the handler falls through every branch without responding,
which happens for a status outside the four known values), the status
store after the call, and the stage endpoints invoked. -/
def processProjectRoute (store : Option UserStatus) (api : PythonApi)
    (username projectId : String) (now : String) :
    Option HttpResponse × Option UserStatus × List String :=
  if username = "" ∨ projectId = "" then
    (some { statusCode := 400
            body := { error := some "username and projectId are required" } },
      store, [])
  else
    match getProjectProcessingStatus store projectId with
    | none =>
        (some { statusCode := 404
                body := { error := some "Project not found" } },
          store, [])
    | some currentStatus =>
        if currentStatus.status = "processing" then
          (some { statusCode := 200
                  body := { status := some currentStatus.status
                            message := some "Project is currently being processed"
                            project := some currentStatus } },
            store, [])
        else if currentStatus.status = "completed" then
          (some { statusCode := 200
                  body := { status := some currentStatus.status
                            message := some "Project already processed"
                            project := some currentStatus } },
            store, [])
        else if currentStatus.status = "failed" ∨ currentStatus.status = "uploaded" then
          let (result, st, calls) :=
            processProjectWithPython store api username projectId now
          if result.success then
            (some { statusCode := 200
                    body := { status := some "completed"
                              message := some result.message
                              project := result.project } },
              st, calls)
          else if result.pythonUnavailable then
            (some { statusCode := 503
                    body := { status := some "failed"
                              error := some result.message
                              errorType := some "python_unavailable"
                              project := result.project } },
              st, calls)
          else
            (some { statusCode := 500
                    body := { status := some "failed"
                              error := some result.message
                              errorType := some "processing_error"
                              project := result.project } },
              st, calls)
        else
          (none, store, [])

/-- One upload request: stored filename, user-facing name, the
`Date.now()` millisecond clock value and the ISO timestamp string. -/
structure UploadEvent where
  filename : String
  originalName : String
  nowMs : Nat
  nowIso : String
  deriving Repr, DecidableEq

/-- The project object built by `addUploadedProject`: its id is the
string `project-` followed by the decimal rendering of `Date.now()`. -/
def newProject (ev : UploadEvent) : Project :=
  { id := "project-" ++ Nat.repr ev.nowMs
    filename := ev.filename
    originalName := ev.originalName
    uploadedAt := ev.nowIso
    status := "uploaded" }

/-- `addUploadedProject(username, filename, originalName)`: read (or
default) the user status, push the new project, set `currentProject`
when it is falsy, and write the document back. -/
def addUploadedProject (store : Option UserStatus) (ev : UploadEvent) :
    Project × UserStatus :=
  let status := store.getD { uploadedProjects := [], currentProject := none }
  let project := newProject ev
  let status :=
    { status with
        uploadedProjects := status.uploadedProjects ++ [project]
        currentProject :=
          if jsFalsyStr status.currentProject then some project.id
          else status.currentProject }
  (project, status)

/-- A sequence of uploads by one user, threading the status document. -/
def runUploads (store : Option UserStatus) : List UploadEvent → Option UserStatus
  | [] => store
  | ev :: evs => runUploads (some (addUploadedProject store ev).snd) evs

/-- Character-list test: does the list start with the pattern? -/
def startsWithChars : List Char → List Char → Bool
  | _, [] => true
  | [], _ :: _ => false
  | a :: as, b :: bs => a == b && startsWithChars as bs

/-- Character-list test: does the pattern occur anywhere in the list? -/
def hasSubChars (pat : List Char) : List Char → Bool
  | [] => startsWithChars [] pat
  | a :: as => startsWithChars (a :: as) pat || hasSubChars pat as

/-- Substring test, used to state the claim "the error message contains
the word X". -/
def containsSubstring (s pat : String) : Bool :=
  hasSubChars pat.data s.data

/-!
Helper lemmas about the embedding, followed by one theorem (plus
witness / counterexample where required) per specification claim.
-/

/-- Looking a project up after updating the first matching one yields the
updated record, provided the update preserves the id. -/
theorem find_setFirstMatch (ps : List Project) (pid : String)
    (f : Project → Project) (p : Project)
    (hf : ∀ q, (f q).id = q.id)
    (h : ps.find? (fun q => q.id == pid) = some p) :
    (setFirstMatch ps pid f).find? (fun q => q.id == pid) = some (f p) := by
  induction ps with
  | nil => simp at h
  | cons a ps ih =>
      simp only [setFirstMatch]
      by_cases ha : (a.id == pid) = true
      · rw [List.find?_cons_of_pos (p := fun q : Project => q.id == pid) ps ha] at h
        cases h
        rw [if_pos ha]
        exact List.find?_cons_of_pos (p := fun q : Project => q.id == pid)
          (a := f p) ps (by simpa [hf] using ha)
      · rw [List.find?_cons_of_neg (p := fun q : Project => q.id == pid) ps ha] at h
        rw [if_neg ha]
        rw [List.find?_cons_of_neg (p := fun q : Project => q.id == pid)
          (setFirstMatch ps pid f) ha]
        exact ih h

/-- Standalone fixture: a freshly uploaded project `p1` of user alice. -/
def sampleUploaded : Project :=
  { id := "p1", filename := "doc.pdf", originalName := "doc.pdf",
    uploadedAt := "t0", status := "uploaded" }

/-- Standalone fixture: the external API with every stage succeeding and
reporting the output paths of the end-to-end scenario. -/
def apiAllOk : PythonApi :=
  { healthReachable := true
    mineru := { ok := true, success := true, dataPath := some "p1.md" }
    chunker := { ok := true, success := true, dataPath := some "p1-chunks.json" }
    vectorization := { ok := true, success := true } }

/-- Standalone fixture: the external API with the liveness probe failing. -/
def apiDown : PythonApi :=
  { healthReachable := false
    mineru := { ok := true, success := true, dataPath := some "p1.md" }
    chunker := { ok := true, success := true, dataPath := some "p1-chunks.json" }
    vectorization := { ok := true, success := true } }

/-- C1: for a project `p1` of user alice in status uploaded or failed,
with the liveness probe reachable and the three stages succeeding with
output paths `p1.md` and `p1-chunks.json`, the trigger-processing request
runs all three stages, persists, and returns 200 with a project whose
status is completed, markdownFile `p1.md`, chunksFile `p1-chunks.json`,
collectionName `alice-p1`, and processedAt set to the completion time. -/
theorem requestProcessing_success_e2e (p : Project) (api : PythonApi)
    (cur : Option String) (now : String)
    (hid : p.id = "p1")
    (hst : p.status = "uploaded" ∨ p.status = "failed")
    (hh : api.healthReachable = true)
    (hm : api.mineru.ok = true) (hms : api.mineru.success = true)
    (hmp : api.mineru.dataPath = some "p1.md")
    (hc : api.chunker.ok = true) (hcs : api.chunker.success = true)
    (hcp : api.chunker.dataPath = some "p1-chunks.json")
    (hv : api.vectorization.ok = true) (hvs : api.vectorization.success = true) :
    processProjectRoute
        (some { uploadedProjects := [p], currentProject := cur })
        api "alice" "p1" now =
      (some { statusCode := 200
              body := { status := some "completed"
                        message := some "Project processed successfully"
                        project := some { p with
                          status := "completed"
                          processedAt := some now
                          markdownFile := some "p1.md"
                          chunksFile := some "p1-chunks.json"
                          collectionName := some "alice-p1" } } },
        some { uploadedProjects := [{ p with
                 status := "completed"
                 processedAt := some now
                 markdownFile := some "p1.md"
                 chunksFile := some "p1-chunks.json"
                 collectionName := some "alice-p1" }]
               currentProject := cur },
        ["mineru", "chunker", "vectorization"]) := by
  rcases hst with hst | hst <;>
    simp [processProjectRoute, getProjectProcessingStatus,
      processProjectWithPython, findProject, setFirstMatch, jsOrStr,
      hid, hst, hh, hm, hms, hmp, hc, hcs, hcp, hv, hvs]

/-- Witness for C1 at the concrete end-to-end scenario of the spec. -/
theorem requestProcessing_success_e2e_witness :
    processProjectRoute
        (some { uploadedProjects := [sampleUploaded], currentProject := some "p1" })
        apiAllOk "alice" "p1" "t1" =
      (some { statusCode := 200
              body := { status := some "completed"
                        message := some "Project processed successfully"
                        project := some { sampleUploaded with
                          status := "completed"
                          processedAt := some "t1"
                          markdownFile := some "p1.md"
                          chunksFile := some "p1-chunks.json"
                          collectionName := some "alice-p1" } } },
        some { uploadedProjects := [{ sampleUploaded with
                 status := "completed"
                 processedAt := some "t1"
                 markdownFile := some "p1.md"
                 chunksFile := some "p1-chunks.json"
                 collectionName := some "alice-p1" }]
               currentProject := some "p1" },
        ["mineru", "chunker", "vectorization"]) :=
  requestProcessing_success_e2e sampleUploaded apiAllOk (some "p1") "t1"
    rfl (Or.inl rfl) rfl rfl rfl rfl rfl rfl rfl rfl rfl

/-- C2: for every project in status uploaded or failed, when the
liveness probe reports the service unreachable, the trigger-processing
request invokes zero pipeline stages and answers 503 — distinct from the
500 used for pipeline stage failures. -/
theorem unreachable_zero_stage_calls (store : Option UserStatus)
    (api : PythonApi) (username projectId now : String) (p : Project)
    (hu : username ≠ "") (hp : projectId ≠ "")
    (hfind : getProjectProcessingStatus store projectId = some p)
    (hst : p.status = "uploaded" ∨ p.status = "failed")
    (hh : api.healthReachable = false) :
    (processProjectRoute store api username projectId now).2.2 = [] ∧
    ∃ r, (processProjectRoute store api username projectId now).1 = some r ∧
      r.statusCode = 503 := by
  cases store with
  | none => simp [getProjectProcessingStatus] at hfind
  | some us =>
      simp only [getProjectProcessingStatus] at hfind
      rcases hst with hst | hst <;>
        simp [processProjectRoute, getProjectProcessingStatus,
          processProjectWithPython, hfind, hst, hh, hu, hp]

/-- Witness for C2 at the unreachable end-to-end scenario. -/
theorem unreachable_zero_stage_calls_witness :
    (processProjectRoute
        (some { uploadedProjects := [sampleUploaded], currentProject := some "p1" })
        apiDown "alice" "p1" "t1").2.2 = [] ∧
    ∃ r, (processProjectRoute
        (some { uploadedProjects := [sampleUploaded], currentProject := some "p1" })
        apiDown "alice" "p1" "t1").1 = some r ∧
      r.statusCode = 503 :=
  unreachable_zero_stage_calls
    (some { uploadedProjects := [sampleUploaded], currentProject := some "p1" })
    apiDown "alice" "p1" "t1" sampleUploaded
    (by decide) (by decide) rfl (Or.inl rfl) rfl

/-- C3 counterexample: with the probe unreachable, the persisted error is
the literal "Python API server is not running" — not "service
unreachable", and it does not contain the word "unreachable". -/
theorem unreachable_error_text_counterexample :
    (processProjectWithPython
        (some { uploadedProjects := [sampleUploaded], currentProject := some "p1" })
        apiDown "alice" "p1" "t1").2.1 =
      some { uploadedProjects := [{ sampleUploaded with
               status := "failed"
               error := some "Python API server is not running" }]
             currentProject := some "p1" } ∧
    ("Python API server is not running" : String) ≠ "service unreachable" ∧
    containsSubstring "Python API server is not running" "unreachable" = false :=
  ⟨rfl, by decide, by decide⟩

/-- C3 amended: when the liveness probe reports unreachable, the project
is persisted with status failed and error set to the literal message
"Python API server is not running" (an unavailable-service indicator
that does not contain the word "unreachable"). -/
theorem unreachable_marks_failed (us : UserStatus) (api : PythonApi)
    (username projectId now : String) (p : Project)
    (hfind : findProject us projectId = some p)
    (hh : api.healthReachable = false) :
    ∃ us', (processProjectWithPython (some us) api username projectId now).2.1
        = some us' ∧
      findProject us' projectId =
        some { p with status := "failed"
                      error := some "Python API server is not running" } := by
  simp only [processProjectWithPython, hfind, hh, Bool.false_eq_true, if_false]
  refine ⟨_, rfl, ?_⟩
  simp only [findProject] at hfind ⊢
  exact find_setFirstMatch _ _ _ p (fun q => rfl) hfind

/-- Witness for the amended C3 at the concrete unreachable scenario. -/
theorem unreachable_marks_failed_witness :
    ∃ us', (processProjectWithPython
        (some { uploadedProjects := [sampleUploaded], currentProject := some "p1" })
        apiDown "alice" "p1" "t1").2.1 = some us' ∧
      findProject us' "p1" =
        some { sampleUploaded with
               status := "failed"
               error := some "Python API server is not running" } :=
  unreachable_marks_failed
    { uploadedProjects := [sampleUploaded], currentProject := some "p1" }
    apiDown "alice" "p1" "t1" sampleUploaded rfl rfl

/-- C4: triggering processing on a completed project is idempotent: the
stored document is not written, no stage is called, the project record
is returned unchanged, and a second call returns the same response. -/
theorem completed_idempotent (store : Option UserStatus) (api : PythonApi)
    (username projectId now now2 : String) (p : Project)
    (hu : username ≠ "") (hp : projectId ≠ "")
    (hfind : getProjectProcessingStatus store projectId = some p)
    (hst : p.status = "completed") :
    processProjectRoute store api username projectId now =
      (some { statusCode := 200
              body := { status := some p.status
                        message := some "Project already processed"
                        project := some p } },
        store, []) ∧
    processProjectRoute store api username projectId now2 =
      processProjectRoute store api username projectId now := by
  have h1 : ∀ t : String, processProjectRoute store api username projectId t =
      (some { statusCode := 200
              body := { status := some p.status
                        message := some "Project already processed"
                        project := some p } },
        store, []) := by
    intro t
    cases store with
    | none => simp [getProjectProcessingStatus] at hfind
    | some us =>
        simp only [getProjectProcessingStatus] at hfind
        simp [processProjectRoute, getProjectProcessingStatus, hfind, hst, hu, hp]
  exact ⟨h1 now, by rw [h1 now, h1 now2]⟩

/-- Witness for C4 at a concrete completed project. -/
theorem completed_idempotent_witness :
    processProjectRoute
        (some { uploadedProjects := [{ sampleUploaded with status := "completed" }]
                currentProject := some "p1" })
        apiAllOk "alice" "p1" "t1" =
      (some { statusCode := 200
              body := { status := some ({ sampleUploaded with
                          status := "completed" } : Project).status
                        message := some "Project already processed"
                        project := some { sampleUploaded with status := "completed" } } },
        some { uploadedProjects := [{ sampleUploaded with status := "completed" }]
               currentProject := some "p1" }, []) ∧
    processProjectRoute
        (some { uploadedProjects := [{ sampleUploaded with status := "completed" }]
                currentProject := some "p1" })
        apiAllOk "alice" "p1" "t2" =
      processProjectRoute
        (some { uploadedProjects := [{ sampleUploaded with status := "completed" }]
                currentProject := some "p1" })
        apiAllOk "alice" "p1" "t1" :=
  completed_idempotent
    (some { uploadedProjects := [{ sampleUploaded with status := "completed" }]
            currentProject := some "p1" })
    apiAllOk "alice" "p1" "t1" "t2" { sampleUploaded with status := "completed" }
    (by decide) (by decide) rfl rfl

/-- C5: when convert succeeds and chunk then fails with detail `d`, the
project is persisted as failed with the chunk stage detail in `error`,
the vectorize stage is never invoked, and `chunksFile` and
`collectionName` stay unset. -/
theorem chunk_failure_marks_failed (us : UserStatus) (api : PythonApi)
    (username projectId now : String) (p : Project) (d : String)
    (hfind : findProject us projectId = some p)
    (hch : p.chunksFile = none) (hco : p.collectionName = none)
    (hh : api.healthReachable = true)
    (hmo : (api.mineru.ok && api.mineru.success) = true)
    (hcf : (api.chunker.ok && api.chunker.success) = false)
    (hd : api.chunker.detail = some d) (hdne : d ≠ "") :
    (processProjectWithPython (some us) api username projectId now).2.2 =
      ["mineru", "chunker"] ∧
    ∃ us' q, (processProjectWithPython (some us) api username projectId now).2.1
        = some us' ∧
      findProject us' projectId = some q ∧
      q.status = "failed" ∧
      q.error = some ("Chunker processing failed: " ++ d) ∧
      q.chunksFile = none ∧ q.collectionName = none := by
  simp only [processProjectWithPython, hfind, hh, hmo, hcf, if_true,
    Bool.not_false, Bool.not_true, failProject, stageDetail, hd, jsOrStr,
    hdne, if_false, Bool.false_eq_true, ite_true, ite_false, if_neg hdne]
  have hq := find_setFirstMatch us.uploadedProjects projectId
    (fun r => { r with status := "failed",
                       error := some ("Chunker processing failed: " ++ d) })
    p (fun q => rfl) (by simpa [findProject] using hfind)
  exact ⟨by trivial, _, _, rfl, hq, rfl, rfl, hch, hco⟩

/-- Witness for C5 with a concrete failing chunk stage. -/
theorem chunk_failure_marks_failed_witness :
    (processProjectWithPython
        (some { uploadedProjects := [sampleUploaded], currentProject := some "p1" })
        { apiAllOk with chunker :=
            { ok := true, success := false, detail := some "bad md" } }
        "alice" "p1" "t1").2.2 = ["mineru", "chunker"] ∧
    ∃ us' q, (processProjectWithPython
        (some { uploadedProjects := [sampleUploaded], currentProject := some "p1" })
        { apiAllOk with chunker :=
            { ok := true, success := false, detail := some "bad md" } }
        "alice" "p1" "t1").2.1 = some us' ∧
      findProject us' "p1" = some q ∧
      q.status = "failed" ∧
      q.error = some ("Chunker processing failed: " ++ "bad md") ∧
      q.chunksFile = none ∧ q.collectionName = none :=
  chunk_failure_marks_failed
    { uploadedProjects := [sampleUploaded], currentProject := some "p1" }
    { apiAllOk with chunker :=
        { ok := true, success := false, detail := some "bad md" } }
    "alice" "p1" "t1" sampleUploaded "bad md"
    rfl rfl rfl rfl rfl rfl rfl (by decide)

/-- C6 counterexample: reprocessing a failed project to completion does
not clear the stored error — the completed record still carries the old
failure message, contradicting "present only when status is failed". -/
theorem stale_error_counterexample :
    ∃ us' q, (processProjectWithPython
        (some { uploadedProjects := [{ sampleUploaded with
                  status := "failed", error := some "previous failure" }]
                currentProject := some "p1" })
        apiAllOk "alice" "p1" "t1").2.1 = some us' ∧
      findProject us' "p1" = some q ∧
      q.status = "completed" ∧
      q.error = some "previous failure" ∧
      q.error ≠ none :=
  ⟨_, _, rfl, rfl, rfl, rfl, by decide⟩

/-- C6 amended: the success path overwrites status, processedAt and the
three output fields but never touches `error`: after a successful
reprocessing the project is completed and still carries whatever error
message it had before, so "error present only when failed" fails. -/
theorem success_keeps_error (us : UserStatus) (api : PythonApi)
    (username projectId now : String) (p : Project)
    (hfind : findProject us projectId = some p)
    (hh : api.healthReachable = true)
    (hmo : (api.mineru.ok && api.mineru.success) = true)
    (hcs : (api.chunker.ok && api.chunker.success) = true)
    (hvs : (api.vectorization.ok && api.vectorization.success) = true) :
    ∃ us' q, (processProjectWithPython (some us) api username projectId now).2.1
        = some us' ∧
      findProject us' projectId = some q ∧
      q.status = "completed" ∧ q.error = p.error := by
  simp only [processProjectWithPython, hfind, hh, hmo, hcs, hvs, if_true,
    Bool.not_true, Bool.false_eq_true, if_false, ite_true, ite_false]
  have hq := find_setFirstMatch us.uploadedProjects projectId
    (fun r => { r with
      status := "completed"
      processedAt := some now
      markdownFile := some (jsOrStr api.mineru.dataPath (p.filename ++ ".md"))
      chunksFile := some (jsOrStr api.chunker.dataPath (projectId ++ "-chunks.json"))
      collectionName := some (username ++ "-" ++ projectId) })
    p (fun q => rfl) (by simpa [findProject] using hfind)
  exact ⟨_, _, rfl, hq, rfl, rfl⟩

/-- Witness for the amended C6 at a concrete failed project. -/
theorem success_keeps_error_witness :
    ∃ us' q, (processProjectWithPython
        (some { uploadedProjects := [{ sampleUploaded with
                  status := "failed", error := some "previous failure" }]
                currentProject := some "p1" })
        apiAllOk "alice" "p1" "t1").2.1 = some us' ∧
      findProject us' "p1" = some q ∧
      q.status = "completed" ∧
      q.error = ({ sampleUploaded with
        status := "failed", error := some "previous failure" } : Project).error :=
  success_keeps_error
    { uploadedProjects := [{ sampleUploaded with
        status := "failed", error := some "previous failure" }]
      currentProject := some "p1" }
    apiAllOk "alice" "p1" "t1"
    { sampleUploaded with status := "failed", error := some "previous failure" }
    rfl rfl rfl rfl rfl

/-- C7: a successful stage response with no `data.path` is not an error:
the convert output defaults to the input file name with ".md" appended
and the chunk output defaults to `projectId`-chunks.json, and the run
still completes successfully. -/
theorem missing_path_defaults (us : UserStatus) (api : PythonApi)
    (username projectId now : String) (p : Project)
    (hfind : findProject us projectId = some p)
    (hh : api.healthReachable = true)
    (hmo : (api.mineru.ok && api.mineru.success) = true)
    (hmp : api.mineru.dataPath = none)
    (hcs : (api.chunker.ok && api.chunker.success) = true)
    (hcp : api.chunker.dataPath = none)
    (hvs : (api.vectorization.ok && api.vectorization.success) = true) :
    (processProjectWithPython (some us) api username projectId now).1.success
      = true ∧
    ∃ us' q, (processProjectWithPython (some us) api username projectId now).2.1
        = some us' ∧
      findProject us' projectId = some q ∧
      q.markdownFile = some (p.filename ++ ".md") ∧
      q.chunksFile = some (projectId ++ "-chunks.json") := by
  simp only [processProjectWithPython, hfind, hh, hmo, hcs, hvs, hmp, hcp,
    jsOrStr, if_true, Bool.not_true, Bool.false_eq_true, if_false,
    ite_true, ite_false]
  have hq := find_setFirstMatch us.uploadedProjects projectId
    (fun r => { r with
      status := "completed"
      processedAt := some now
      markdownFile := some (p.filename ++ ".md")
      chunksFile := some (projectId ++ "-chunks.json")
      collectionName := some (username ++ "-" ++ projectId) })
    p (fun q => rfl) (by simpa [findProject] using hfind)
  exact ⟨by trivial, _, _, rfl, hq, rfl, rfl⟩

/-- Witness for C7 with concrete pathless stage responses. -/
theorem missing_path_defaults_witness :
    (processProjectWithPython
        (some { uploadedProjects := [sampleUploaded], currentProject := some "p1" })
        { healthReachable := true
          mineru := { ok := true, success := true }
          chunker := { ok := true, success := true }
          vectorization := { ok := true, success := true } }
        "alice" "p1" "t1").1.success = true ∧
    ∃ us' q, (processProjectWithPython
        (some { uploadedProjects := [sampleUploaded], currentProject := some "p1" })
        { healthReachable := true
          mineru := { ok := true, success := true }
          chunker := { ok := true, success := true }
          vectorization := { ok := true, success := true } }
        "alice" "p1" "t1").2.1 = some us' ∧
      findProject us' "p1" = some q ∧
      q.markdownFile = some (sampleUploaded.filename ++ ".md") ∧
      q.chunksFile = some ("p1" ++ "-chunks.json") :=
  missing_path_defaults
    { uploadedProjects := [sampleUploaded], currentProject := some "p1" }
    { healthReachable := true
      mineru := { ok := true, success := true }
      chunker := { ok := true, success := true }
      vectorization := { ok := true, success := true } }
    "alice" "p1" "t1" sampleUploaded
    rfl rfl rfl rfl rfl rfl rfl

/-- C8 counterexample: the unreachable outcome answers 503, but its
failure-reason field is `python_unavailable`, not `service_unavailable`. -/
theorem gateway_error_reason_counterexample :
    ∃ r, (processProjectRoute
        (some { uploadedProjects := [sampleUploaded], currentProject := some "p1" })
        apiDown "alice" "p1" "t1").1 = some r ∧
      r.statusCode = 503 ∧
      r.body.errorType = some "python_unavailable" ∧
      r.body.errorType ≠ some "service_unavailable" :=
  ⟨_, rfl, rfl, rfl, by decide⟩

/-- C8 amended: the gateway maps orchestrator outcomes to the specified
status codes — completed and in-flight processing to 200, absent project
to 404, unreachable dependency to 503 and stage failure to 500 — but the
failure-reason field it emits is `errorType`, with value
`python_unavailable` (not `service_unavailable`) for the unreachable case
and `processing_error` for stage failures. -/
theorem gateway_outcome_mapping (store : Option UserStatus) (api : PythonApi)
    (username projectId now : String)
    (hu : username ≠ "") (hp : projectId ≠ "") :
    (∀ p, getProjectProcessingStatus store projectId = some p →
      p.status = "completed" →
      ∃ r, (processProjectRoute store api username projectId now).1 = some r ∧
        r.statusCode = 200) ∧
    (∀ p, getProjectProcessingStatus store projectId = some p →
      p.status = "processing" →
      ∃ r, (processProjectRoute store api username projectId now).1 = some r ∧
        r.statusCode = 200) ∧
    (getProjectProcessingStatus store projectId = none →
      (processProjectRoute store api username projectId now).1 =
        some { statusCode := 404
               body := { error := some "Project not found" } }) ∧
    (∀ p, getProjectProcessingStatus store projectId = some p →
      (p.status = "uploaded" ∨ p.status = "failed") →
      api.healthReachable = false →
      ∃ r, (processProjectRoute store api username projectId now).1 = some r ∧
        r.statusCode = 503 ∧ r.body.errorType = some "python_unavailable") ∧
    (∀ p, getProjectProcessingStatus store projectId = some p →
      (p.status = "uploaded" ∨ p.status = "failed") →
      api.healthReachable = true →
      ((api.mineru.ok && api.mineru.success) = false ∨
       (api.chunker.ok && api.chunker.success) = false ∨
       (api.vectorization.ok && api.vectorization.success) = false) →
      ∃ r, (processProjectRoute store api username projectId now).1 = some r ∧
        r.statusCode = 500 ∧ r.body.errorType = some "processing_error") := by
  refine ⟨?_, ?_, ?_, ?_, ?_⟩
  · intro p hfind hst
    cases store with
    | none => simp [getProjectProcessingStatus] at hfind
    | some us =>
        simp only [getProjectProcessingStatus] at hfind
        simp [processProjectRoute, getProjectProcessingStatus, hfind, hst, hu, hp]
  · intro p hfind hst
    cases store with
    | none => simp [getProjectProcessingStatus] at hfind
    | some us =>
        simp only [getProjectProcessingStatus] at hfind
        simp [processProjectRoute, getProjectProcessingStatus, hfind, hst, hu, hp]
  · intro hnone
    cases store with
    | none =>
        simp [processProjectRoute, getProjectProcessingStatus, hu, hp]
    | some us =>
        simp only [getProjectProcessingStatus] at hnone
        simp [processProjectRoute, getProjectProcessingStatus, hnone, hu, hp]
  · intro p hfind hst hh
    cases store with
    | none => simp [getProjectProcessingStatus] at hfind
    | some us =>
        simp only [getProjectProcessingStatus] at hfind
        rcases hst with hst | hst <;>
          simp [processProjectRoute, getProjectProcessingStatus,
            processProjectWithPython, hfind, hst, hh, hu, hp]
  · intro p hfind hst hh hfail
    cases store with
    | none => simp [getProjectProcessingStatus] at hfind
    | some us =>
        simp only [getProjectProcessingStatus] at hfind
        cases hm : (api.mineru.ok && api.mineru.success) with
        | false =>
            rcases hst with hst | hst <;>
              simp [processProjectRoute, getProjectProcessingStatus,
                processProjectWithPython, failProject, hfind, hst, hh, hm, hu, hp]
        | true =>
            cases hc : (api.chunker.ok && api.chunker.success) with
            | false =>
                rcases hst with hst | hst <;>
                  simp [processProjectRoute, getProjectProcessingStatus,
                    processProjectWithPython, failProject, hfind, hst, hh,
                    hm, hc, hu, hp]
            | true =>
                cases hv : (api.vectorization.ok && api.vectorization.success) with
                | false =>
                    rcases hst with hst | hst <;>
                      simp [processProjectRoute, getProjectProcessingStatus,
                        processProjectWithPython, failProject, hfind, hst, hh,
                        hm, hc, hv, hu, hp]
                | true =>
                    exfalso
                    rcases hfail with h | h | h <;> simp_all

/-- Witness for the amended C8: one concrete instantiation per outcome. -/
theorem gateway_outcome_mapping_witness :
    (∃ r, (processProjectRoute
        (some { uploadedProjects := [{ sampleUploaded with status := "completed" }]
                currentProject := some "p1" })
        apiAllOk "alice" "p1" "t1").1 = some r ∧ r.statusCode = 200) ∧
    (∃ r, (processProjectRoute
        (some { uploadedProjects := [{ sampleUploaded with status := "processing" }]
                currentProject := some "p1" })
        apiAllOk "alice" "p1" "t1").1 = some r ∧ r.statusCode = 200) ∧
    ((processProjectRoute (some { uploadedProjects := [], currentProject := none })
        apiAllOk "alice" "p1" "t1").1 =
      some { statusCode := 404
             body := { error := some "Project not found" } }) ∧
    (∃ r, (processProjectRoute
        (some { uploadedProjects := [sampleUploaded], currentProject := some "p1" })
        apiDown "alice" "p1" "t1").1 = some r ∧
      r.statusCode = 503 ∧ r.body.errorType = some "python_unavailable") ∧
    (∃ r, (processProjectRoute
        (some { uploadedProjects := [sampleUploaded], currentProject := some "p1" })
        { apiAllOk with chunker :=
            { ok := true, success := false, detail := some "bad md" } }
        "alice" "p1" "t1").1 = some r ∧
      r.statusCode = 500 ∧ r.body.errorType = some "processing_error") := by
  refine ⟨?_, ?_, ?_, ?_, ?_⟩
  · exact (gateway_outcome_mapping
      (some { uploadedProjects := [{ sampleUploaded with status := "completed" }]
              currentProject := some "p1" })
      apiAllOk "alice" "p1" "t1" (by decide) (by decide)).1
      { sampleUploaded with status := "completed" } rfl rfl
  · exact (gateway_outcome_mapping
      (some { uploadedProjects := [{ sampleUploaded with status := "processing" }]
              currentProject := some "p1" })
      apiAllOk "alice" "p1" "t1" (by decide) (by decide)).2.1
      { sampleUploaded with status := "processing" } rfl rfl
  · exact (gateway_outcome_mapping
      (some { uploadedProjects := [], currentProject := none })
      apiAllOk "alice" "p1" "t1" (by decide) (by decide)).2.2.1 rfl
  · exact (gateway_outcome_mapping
      (some { uploadedProjects := [sampleUploaded], currentProject := some "p1" })
      apiDown "alice" "p1" "t1" (by decide) (by decide)).2.2.2.1
      sampleUploaded rfl (Or.inl rfl) rfl
  · exact (gateway_outcome_mapping
      (some { uploadedProjects := [sampleUploaded], currentProject := some "p1" })
      { apiAllOk with chunker :=
          { ok := true, success := false, detail := some "bad md" } }
      "alice" "p1" "t1" (by decide) (by decide)).2.2.2.2
      sampleUploaded rfl (Or.inl rfl) rfl (Or.inr (Or.inl rfl))

/-- C9 counterexample: the 503 unreachable response for an existing
project carries no project record — the orchestrator failure result omits
the field, so the body's `project` is absent. -/
theorem error_response_missing_project_counterexample :
    ∃ r, (processProjectRoute
        (some { uploadedProjects := [sampleUploaded], currentProject := some "p1" })
        apiDown "alice" "p1" "t1").1 = some r ∧
      r.statusCode = 503 ∧ r.body.project = none :=
  ⟨_, rfl, rfl, rfl⟩

/-- C9 amended: for an existing project, the 200 responses (completed,
in-flight, pipeline success) carry a project record in the body, while
the 503 and 500 failure responses carry none, because the orchestrator's
failure results omit the project field. -/
theorem response_project_field (store : Option UserStatus) (api : PythonApi)
    (username projectId now : String) (p : Project)
    (hu : username ≠ "") (hp : projectId ≠ "")
    (hfind : getProjectProcessingStatus store projectId = some p) :
    ∀ r, (processProjectRoute store api username projectId now).1 = some r →
      (r.statusCode = 200 → ∃ q, r.body.project = some q) ∧
      ((r.statusCode = 503 ∨ r.statusCode = 500) → r.body.project = none) := by
  cases store with
  | none => simp [getProjectProcessingStatus] at hfind
  | some us =>
      simp only [getProjectProcessingStatus] at hfind
      by_cases h1 : p.status = "processing"
      · intro r hr
        simp [processProjectRoute, getProjectProcessingStatus, hfind, h1,
          hu, hp] at hr
        subst hr
        simp
      · by_cases h2 : p.status = "completed"
        · intro r hr
          simp [processProjectRoute, getProjectProcessingStatus, hfind, h1,
            h2, hu, hp] at hr
          subst hr
          simp
        · by_cases h3 : p.status = "failed" ∨ p.status = "uploaded"
          · cases hh : api.healthReachable with
            | false =>
                intro r hr
                simp [processProjectRoute, getProjectProcessingStatus,
                  processProjectWithPython, hfind, h1, h2, h3, hh, hu, hp] at hr
                subst hr
                simp
            | true =>
                cases hm : (api.mineru.ok && api.mineru.success) with
                | false =>
                    intro r hr
                    simp [processProjectRoute, getProjectProcessingStatus,
                      processProjectWithPython, failProject, hfind, h1, h2,
                      h3, hh, hm, hu, hp] at hr
                    subst hr
                    simp
                | true =>
                    cases hc : (api.chunker.ok && api.chunker.success) with
                    | false =>
                        intro r hr
                        simp [processProjectRoute, getProjectProcessingStatus,
                          processProjectWithPython, failProject, hfind, h1, h2,
                          h3, hh, hm, hc, hu, hp] at hr
                        subst hr
                        simp
                    | true =>
                        cases hv : (api.vectorization.ok &&
                            api.vectorization.success) with
                        | false =>
                            intro r hr
                            simp [processProjectRoute,
                              getProjectProcessingStatus,
                              processProjectWithPython, failProject, hfind,
                              h1, h2, h3, hh, hm, hc, hv, hu, hp] at hr
                            subst hr
                            simp
                        | true =>
                            intro r hr
                            simp [processProjectRoute,
                              getProjectProcessingStatus,
                              processProjectWithPython, hfind, h1, h2, h3,
                              hh, hm, hc, hv, hu, hp] at hr
                            subst hr
                            simp
          · intro r hr
            simp [processProjectRoute, getProjectProcessingStatus, hfind,
              h1, h2, h3, hu, hp] at hr

/-- Witness for the amended C9: the concrete 503 response carries no
project record. -/
theorem response_project_field_witness :
    ({ statusCode := 503
       body := { status := some "failed"
                 error := some "Python API server is not running. Please start it with: python src/core/main.py"
                 errorType := some "python_unavailable"
                 project := none } } : HttpResponse).body.project = none :=
  (response_project_field
    (some { uploadedProjects := [sampleUploaded], currentProject := some "p1" })
    apiDown "alice" "p1" "t1" sampleUploaded (by decide) (by decide) rfl
    { statusCode := 503
      body := { status := some "failed"
                error := some "Python API server is not running. Please start it with: python src/core/main.py"
                errorType := some "python_unavailable"
                project := none } } rfl).2 (Or.inl rfl)

/-- With sufficient fuel, `Nat.toDigitsCore` of a positive number renders
the base-b digits most-significant-first in front of the accumulator. -/
theorem toDigitsCore_eq_digits (b : Nat) (hb : 2 ≤ b) :
    ∀ (f n : Nat) (acc : List Char), 0 < n → n < f →
      Nat.toDigitsCore b f n acc =
        ((Nat.digits b n).map Nat.digitChar).reverse ++ acc := by
  intro f
  induction f with
  | zero => intro n acc hn hf; omega
  | succ f ih =>
      intro n acc hn hf
      have hd := Nat.digits_def' (b := b) (by omega) hn
      simp only [Nat.toDigitsCore]
      by_cases hz : n / b = 0
      · rw [if_pos hz, hd, hz]
        simp
      · rw [if_neg hz]
        have hnb : 0 < n / b := Nat.pos_of_ne_zero hz
        have hlt : n / b < f := by
          have := Nat.div_lt_self hn (by omega : 1 < b)
          omega
        rw [ih (n / b) (Nat.digitChar (n % b) :: acc) hnb hlt, hd]
        simp

/-- `Nat.toDigits` of a positive number is the reversed digit-character
list of `Nat.digits`. -/
theorem toDigits_eq_digits (b n : Nat) (hb : 2 ≤ b) (hn : 0 < n) :
    Nat.toDigits b n = ((Nat.digits b n).map Nat.digitChar).reverse := by
  rw [Nat.toDigits]
  rw [toDigitsCore_eq_digits b hb (n + 1) n [] hn (Nat.lt_succ_self n)]
  simp

/-- `Nat.digitChar` is injective on decimal digits. -/
theorem digitChar_inj_lt : ∀ d1 : Nat, d1 < 10 → ∀ d2 : Nat, d2 < 10 →
    Nat.digitChar d1 = Nat.digitChar d2 → d1 = d2 := by decide

/-- Mapping `Nat.digitChar` over decimal-digit lists is injective. -/
theorem map_digitChar_inj : ∀ (l1 l2 : List Nat),
    (∀ d ∈ l1, d < 10) → (∀ d ∈ l2, d < 10) →
    l1.map Nat.digitChar = l2.map Nat.digitChar → l1 = l2 := by
  intro l1
  induction l1 with
  | nil =>
      intro l2 _ _ h
      cases l2 with
      | nil => rfl
      | cons b l2 => simp at h
  | cons a l1 ih =>
      intro l2 h1 h2 h
      cases l2 with
      | nil => simp at h
      | cons b l2 =>
          simp only [List.map_cons, List.cons.injEq] at h
          have ha : a = b :=
            digitChar_inj_lt a (h1 a (by simp)) b (h2 b (by simp)) h.1
          have ht := ih l2 (fun d hd => h1 d (by simp [hd]))
            (fun d hd => h2 d (by simp [hd])) h.2
          rw [ha, ht]

/-- A positive number never renders to the digit string of zero. -/
theorem toDigits_pos_ne_zero (n : Nat) (hn : 0 < n)
    (h : Nat.toDigits 10 n = Nat.toDigits 10 0) : False := by
  rw [toDigits_eq_digits 10 n (by omega) hn] at h
  have h0 : Nat.toDigits 10 0 = ['0'] := rfl
  rw [h0] at h
  have h3 : (Nat.digits 10 n).map Nat.digitChar = ['0'] := by
    have := congrArg List.reverse h
    simpa using this
  have h4 : Nat.digits 10 n = [0] := by
    apply map_digitChar_inj _ [0]
      (fun d hd => Nat.digits_lt_base (by omega) hd) (by simp)
    rw [h3]
    rfl
  have h5 := Nat.ofDigits_digits 10 n
  rw [h4] at h5
  simp [Nat.ofDigits] at h5
  omega

/-- The decimal rendering `Nat.repr` is injective. -/
theorem natRepr_inj {m n : Nat} (h : Nat.repr m = Nat.repr n) : m = n := by
  have h2 : Nat.toDigits 10 m = Nat.toDigits 10 n := by
    have hd := congrArg String.data h
    simpa [Nat.repr, List.asString] using hd
  have dlt : ∀ k : Nat, ∀ d ∈ Nat.digits 10 k, d < 10 := fun k d hd =>
    Nat.digits_lt_base (by omega) hd
  rcases Nat.eq_zero_or_pos m with hm | hm
  · rcases Nat.eq_zero_or_pos n with hn | hn
    · omega
    · exact absurd (h2.symm.trans (by rw [hm])) (fun hx =>
        toDigits_pos_ne_zero n hn hx)
  · rcases Nat.eq_zero_or_pos n with hn | hn
    · exact absurd (h2.trans (by rw [hn])) (fun hx =>
        toDigits_pos_ne_zero m hm hx)
    · rw [toDigits_eq_digits 10 m (by omega) hm,
        toDigits_eq_digits 10 n (by omega) hn] at h2
      have h3 := List.reverse_injective h2
      have h4 := map_digitChar_inj _ _ (dlt m) (dlt n) h3
      have h5 := Nat.ofDigits_digits 10 m
      have h6 := Nat.ofDigits_digits 10 n
      rw [h4] at h5
      rw [h6] at h5
      exact h5.symm

/-- String append is left-cancellative. -/
theorem string_append_left_cancel {s t1 t2 : String}
    (h : s ++ t1 = s ++ t2) : t1 = t2 := by
  cases s with
  | mk ds =>
      cases t1 with
      | mk d1 =>
          cases t2 with
          | mk d2 =>
              have hd : ds ++ d1 = ds ++ d2 := congrArg String.data h
              have h2 := List.append_cancel_left hd
              rw [h2]

/-- Two generated project ids agree only when the upload clock values
agree. -/
theorem newProject_id_inj {e1 e2 : UploadEvent}
    (h : (newProject e1).id = (newProject e2).id) : e1.nowMs = e2.nowMs := by
  simp only [newProject] at h
  exact natRepr_inj (string_append_left_cancel h)

/-- Uploads append their generated project records in order. -/
theorem runUploads_projects : ∀ (evs : List UploadEvent) (us us' : UserStatus),
    runUploads (some us) evs = some us' →
    us'.uploadedProjects = us.uploadedProjects ++ evs.map newProject := by
  intro evs
  induction evs with
  | nil =>
      intro us us' h
      simp only [runUploads, Option.some.injEq] at h
      rw [← h]
      simp
  | cons ev evs ih =>
      intro us us' h
      simp only [runUploads] at h
      have h2 := ih _ us' h
      simp only [addUploadedProject, Option.getD] at h2
      rw [h2]
      simp

/-- C10 counterexample: two uploads by one user in the same millisecond
(`Date.now()` value 5 twice) both receive the id `project-5`, so ids are
not unique within the user's uploadedProjects. -/
theorem upload_id_collision_counterexample :
    (((runUploads none [⟨"f1", "o1", 5, "t"⟩, ⟨"f2", "o2", 5, "t"⟩]).elim []
        UserStatus.uploadedProjects).map Project.id) =
      ["project-5", "project-5"] ∧
    ¬ (["project-5", "project-5"] : List String).Nodup :=
  ⟨rfl, by decide⟩

/-- C10 amended: a project id is `project-` followed by the decimal
upload clock value, so for a sequence of uploads by one user the ids are
unique whenever the uploads carry pairwise-distinct millisecond
timestamps — same-millisecond uploads share an id. -/
theorem upload_ids_unique (evs : List UploadEvent) (us : UserStatus)
    (hms : evs.Pairwise (fun e1 e2 => e1.nowMs ≠ e2.nowMs))
    (hrun : runUploads none evs = some us) :
    (us.uploadedProjects.map Project.id).Nodup := by
  cases evs with
  | nil => simp [runUploads] at hrun
  | cons ev evs =>
      simp only [runUploads] at hrun
      have h2 := runUploads_projects evs _ us hrun
      have h3 : (addUploadedProject none ev).snd.uploadedProjects =
          [newProject ev] := by
        simp [addUploadedProject]
      rw [h3] at h2
      rw [h2]
      have h4 : ([newProject ev] ++ evs.map newProject) =
          (ev :: evs).map newProject := by simp
      rw [h4]
      simp only [List.map_map]
      exact List.Pairwise.map _
        (fun a b hab hid => hab (newProject_id_inj hid)) hms

/-- Witness for the amended C10 at two uploads with distinct clocks. -/
theorem upload_ids_unique_witness :
    (({ uploadedProjects :=
          [newProject ⟨"f1", "o1", 1, "t1"⟩, newProject ⟨"f2", "o2", 2, "t2"⟩]
        currentProject := some "project-1" } : UserStatus).uploadedProjects.map
      Project.id).Nodup :=
  upload_ids_unique [⟨"f1", "o1", 1, "t1"⟩, ⟨"f2", "o2", 2, "t2"⟩] _
    (by simp) rfl
